import Mathlib

/-!
Shallow embedding of the Copilot-Game core (src/game/src/game_state.rs,
src/game/src/input.rs, src/game/src/lib.rs).

Machine floats (f64) are modelled as exact rationals; the Rust
f64::clamp aborts when the lower bound exceeds the upper bound, so it is
embedded as an Option-valued function and every function that calls it is
Option-valued as well.  The GameScreen enum is declared with four
variants in game_state.rs, but lib.rs pattern-matches on the additional
LoginScreen, ServerSelection and MainMenu variants, so the embedding
carries all seven.
-/

/-- Screens of the game.  game_state.rs declares GameHUD, Inventory, Shop,
HelpModal; lib.rs additionally references LoginScreen, ServerSelection and
MainMenu, so the embedding includes all variants lib.rs requires. -/
inductive GameScreen where
  | LoginScreen
  | ServerSelection
  | MainMenu
  | GameHUD
  | Inventory
  | Shop
  | HelpModal
deriving DecidableEq, Repr

/-- Regions for server selection (game_state.rs). -/
inductive Region where
  | EU
  | Asia
  | Vietnam
deriving DecidableEq, Repr

/-- Core game state (game_state.rs, struct GameState). -/
structure GameState where
  current_screen : GameScreen
  selected_region : Option Region
  player_name : Option String
  is_loading : Bool
  error_message : Option String
  player_x : ℚ
  player_y : ℚ
  world_width : ℚ
  world_height : ℚ
  ball_x : ℚ
  ball_y : ℚ
  ball_dx : ℚ
  ball_dy : ℚ
deriving DecidableEq, Repr

/-- GameState::new (game_state.rs line 44). -/
def GameState.new (width height : ℚ) : GameState where
  current_screen := GameScreen.GameHUD
  selected_region := some Region.EU
  player_name := some "Player"
  is_loading := false
  error_message := none
  player_x := width / 2
  player_y := height / 2
  world_width := width
  world_height := height
  ball_x := width / 2
  ball_y := height / 2
  ball_dx := 3
  ball_dy := 2

/-- GameState::transition_to (game_state.rs line 64). -/
def GameState.transition_to (s : GameState) (screen : GameScreen) : GameState :=
  { s with current_screen := screen, error_message := none }

/-- GameState::set_region (game_state.rs line 70). -/
def GameState.set_region (s : GameState) (region : Region) : GameState :=
  { s with selected_region := some region }

/-- GameState::set_player_name (game_state.rs line 75). -/
def GameState.set_player_name (s : GameState) (name : String) : GameState :=
  { s with player_name := some name }

/-- GameState::set_loading (game_state.rs line 80). -/
def GameState.set_loading (s : GameState) (loading : Bool) : GameState :=
  { s with is_loading := loading }

/-- GameState::set_error (game_state.rs line 85). -/
def GameState.set_error (s : GameState) (message : String) : GameState :=
  { s with error_message := some message }

/-- GameState::clear_error (game_state.rs line 90). -/
def GameState.clear_error (s : GameState) : GameState :=
  { s with error_message := none }

/-- The Rust f64::clamp: aborts (here: none) when lo exceeds hi, otherwise
saturates x into the closed interval. -/
def rustClamp (x lo hi : ℚ) : Option ℚ :=
  if lo ≤ hi then
    some (if x < lo then lo else if x > hi then hi else x)
  else
    none

/-- GameState::move_player (game_state.rs lines 95-99): add the delta, then
clamp each axis into the world bounds. -/
def GameState.move_player (s : GameState) (dx dy : ℚ) : Option GameState :=
  match rustClamp (s.player_x + dx) 0 s.world_width with
  | none => none
  | some px =>
    match rustClamp (s.player_y + dy) 0 s.world_height with
    | none => none
    | some py => some { s with player_x := px, player_y := py }

/-- GameState::reset (game_state.rs lines 102-115). -/
def GameState.reset (s : GameState) : GameState :=
  { s with
    current_screen := GameScreen.GameHUD
    selected_region := some Region.EU
    player_name := some "Player"
    is_loading := false
    error_message := none
    player_x := s.world_width / 2
    player_y := s.world_height / 2
    ball_x := s.world_width / 2
    ball_y := s.world_height / 2
    ball_dx := 3
    ball_dy := 2 }

/-- BALL_RADIUS (lib.rs line 16; game_state.rs line 119 repeats the same
constant locally). -/
def BALL_RADIUS : ℚ := 25

/-- DEFAULT_BALL_SPEED_X (lib.rs line 17). -/
def DEFAULT_BALL_SPEED_X : ℚ := 3

/-- DEFAULT_BALL_SPEED_Y (lib.rs line 18). -/
def DEFAULT_BALL_SPEED_Y : ℚ := 2

/-- GameState::update_ball_physics (game_state.rs lines 118-140): advance
the ball, conditionally negate each velocity component at the walls, then
clamp the position into the interior box on both axes. -/
def GameState.update_ball_physics (s : GameState) : Option GameState :=
  let nx := s.ball_x + s.ball_dx
  let ny := s.ball_y + s.ball_dy
  let ndx := if nx ≤ BALL_RADIUS ∨ nx ≥ s.world_width - BALL_RADIUS then -s.ball_dx else s.ball_dx
  let ndy := if ny ≤ BALL_RADIUS ∨ ny ≥ s.world_height - BALL_RADIUS then -s.ball_dy else s.ball_dy
  match rustClamp nx BALL_RADIUS (s.world_width - BALL_RADIUS) with
  | none => none
  | some cx =>
    match rustClamp ny BALL_RADIUS (s.world_height - BALL_RADIUS) with
    | none => none
    | some cy =>
      some { s with ball_x := cx, ball_y := cy, ball_dx := ndx, ball_dy := ndy }

/-- Legacy ball state (lib.rs, struct LegacyBallState). -/
structure LegacyBallState where
  ball_x : ℚ
  ball_y : ℚ
  ball_dx : ℚ
  ball_dy : ℚ
  width : ℚ
  height : ℚ
deriving DecidableEq, Repr

/-- LegacyBallState::new (lib.rs line 43). -/
def LegacyBallState.new (width height : ℚ) : LegacyBallState where
  ball_x := width / 2
  ball_y := height / 2
  ball_dx := DEFAULT_BALL_SPEED_X
  ball_dy := DEFAULT_BALL_SPEED_Y
  width := width
  height := height

/-- LegacyBallState::update (lib.rs lines 54-70): same algorithm as
GameState::update_ball_physics. -/
def LegacyBallState.update (b : LegacyBallState) : Option LegacyBallState :=
  let nx := b.ball_x + b.ball_dx
  let ny := b.ball_y + b.ball_dy
  let ndx := if nx ≤ BALL_RADIUS ∨ nx ≥ b.width - BALL_RADIUS then -b.ball_dx else b.ball_dx
  let ndy := if ny ≤ BALL_RADIUS ∨ ny ≥ b.height - BALL_RADIUS then -b.ball_dy else b.ball_dy
  match rustClamp nx BALL_RADIUS (b.width - BALL_RADIUS) with
  | none => none
  | some cx =>
    match rustClamp ny BALL_RADIUS (b.height - BALL_RADIUS) with
    | none => none
    | some cy =>
      some { b with ball_x := cx, ball_y := cy, ball_dx := ndx, ball_dy := ndy }

/-- Input events (input.rs, enum InputEvent). -/
inductive InputEvent where
  | MoveUp
  | MoveDown
  | MoveLeft
  | MoveRight
  | MenuSelect
  | MenuBack
  | ToggleInventory
  | ToggleShop
  | ToggleHelp
  | MouseClick (x y : ℚ)
  | TouchTap (x y : ℚ)
  | Escape
  | Enter
deriving DecidableEq, Repr

/-- Input state tracking (input.rs, struct InputState). -/
structure InputState where
  move_up : Bool
  move_down : Bool
  move_left : Bool
  move_right : Bool
  mouse_x : ℚ
  mouse_y : ℚ
  is_mouse_down : Bool
deriving DecidableEq, Repr

/-- InputState::default (derived Default in input.rs). -/
def InputState.default : InputState where
  move_up := false
  move_down := false
  move_left := false
  move_right := false
  mouse_x := 0
  mouse_y := 0
  is_mouse_down := false

/-- Input handler (input.rs, struct InputHandler). -/
structure InputHandler where
  state : InputState
  movement_speed : ℚ
deriving DecidableEq, Repr

/-- InputHandler::new (input.rs line 48). -/
def InputHandler.new : InputHandler where
  state := InputState.default
  movement_speed := 5

/-- InputHandler::handle_key_down (input.rs lines 56-82), as the same
first-match chain on the key-code string; returns the updated handler and
the optional event. -/
def InputHandler.handle_key_down (h : InputHandler) (key_code : String) :
    InputHandler × Option InputEvent :=
  if key_code = "KeyW" ∨ key_code = "ArrowUp" then
    ({ h with state := { h.state with move_up := true } }, some InputEvent.MoveUp)
  else if key_code = "KeyS" ∨ key_code = "ArrowDown" then
    ({ h with state := { h.state with move_down := true } }, some InputEvent.MoveDown)
  else if key_code = "KeyA" ∨ key_code = "ArrowLeft" then
    ({ h with state := { h.state with move_left := true } }, some InputEvent.MoveLeft)
  else if key_code = "KeyD" ∨ key_code = "ArrowRight" then
    ({ h with state := { h.state with move_right := true } }, some InputEvent.MoveRight)
  else if key_code = "KeyI" then (h, some InputEvent.ToggleInventory)
  else if key_code = "KeyT" then (h, some InputEvent.ToggleShop)
  else if key_code = "KeyH" ∨ key_code = "F1" then (h, some InputEvent.ToggleHelp)
  else if key_code = "Enter" then (h, some InputEvent.Enter)
  else if key_code = "Escape" then (h, some InputEvent.Escape)
  else if key_code = "Space" then (h, some InputEvent.MenuSelect)
  else (h, none)

/-- InputHandler::handle_key_up (input.rs lines 85-93). -/
def InputHandler.handle_key_up (h : InputHandler) (key_code : String) : InputHandler :=
  if key_code = "KeyW" ∨ key_code = "ArrowUp" then
    { h with state := { h.state with move_up := false } }
  else if key_code = "KeyS" ∨ key_code = "ArrowDown" then
    { h with state := { h.state with move_down := false } }
  else if key_code = "KeyA" ∨ key_code = "ArrowLeft" then
    { h with state := { h.state with move_left := false } }
  else if key_code = "KeyD" ∨ key_code = "ArrowRight" then
    { h with state := { h.state with move_right := false } }
  else h

/-- InputHandler::handle_mouse_click (input.rs lines 96-100): records the
coordinates and returns the MouseClick event. -/
def InputHandler.handle_mouse_click (h : InputHandler) (x y : ℚ) :
    InputHandler × InputEvent :=
  ({ h with state := { h.state with mouse_x := x, mouse_y := y } },
   InputEvent.MouseClick x y)

/-- InputHandler::handle_mouse_move (input.rs lines 103-106). -/
def InputHandler.handle_mouse_move (h : InputHandler) (x y : ℚ) : InputHandler :=
  { h with state := { h.state with mouse_x := x, mouse_y := y } }

/-- InputHandler::handle_mouse_down (input.rs lines 109-113). -/
def InputHandler.handle_mouse_down (h : InputHandler) (x y : ℚ) : InputHandler :=
  { h with state := { h.state with is_mouse_down := true, mouse_x := x, mouse_y := y } }

/-- InputHandler::handle_mouse_up (input.rs lines 116-120). -/
def InputHandler.handle_mouse_up (h : InputHandler) (x y : ℚ) : InputHandler :=
  { h with state := { h.state with is_mouse_down := false, mouse_x := x, mouse_y := y } }

/-- InputHandler::handle_touch (input.rs lines 123-125): returns the
TouchTap event; the handler state is not modified. -/
def InputHandler.handle_touch (h : InputHandler) (x y : ℚ) :
    InputHandler × InputEvent :=
  (h, InputEvent.TouchTap x y)

/-- InputHandler::get_movement_delta (input.rs lines 128-146). -/
def InputHandler.get_movement_delta (h : InputHandler) : ℚ × ℚ :=
  let dx0 : ℚ := 0
  let dy0 : ℚ := 0
  let dx1 := if h.state.move_left then dx0 - h.movement_speed else dx0
  let dx2 := if h.state.move_right then dx1 + h.movement_speed else dx1
  let dy1 := if h.state.move_up then dy0 - h.movement_speed else dy0
  let dy2 := if h.state.move_down then dy1 + h.movement_speed else dy1
  (dx2, dy2)

/-- InputHandler::is_moving (input.rs lines 159-161). -/
def InputHandler.is_moving (h : InputHandler) : Bool :=
  h.state.move_up || h.state.move_down || h.state.move_left || h.state.move_right

/-- The Game aggregate (lib.rs, struct Game); the canvas and drawing
context are external collaborators and carry no game logic, so only the
state, the input handler and the cached canvas dimensions are embedded. -/
structure Game where
  state : GameState
  input_handler : InputHandler
  width : ℚ
  height : ℚ
deriving DecidableEq, Repr

/-- Game::process_input_event (lib.rs lines 294-414): the screen state
machine, a first-match table on (current screen, event). -/
def Game.process_input_event (g : Game) (event : InputEvent) : Game × Bool :=
  match g.state.current_screen, event with
  | GameScreen.LoginScreen, InputEvent.Enter =>
    ({ g with state := (g.state.set_player_name "Player").transition_to GameScreen.ServerSelection }, true)
  | GameScreen.LoginScreen, InputEvent.MouseClick _ _ =>
    ({ g with state := (g.state.set_player_name "Player").transition_to GameScreen.ServerSelection }, true)
  | GameScreen.LoginScreen, InputEvent.TouchTap _ _ =>
    ({ g with state := (g.state.set_player_name "Player").transition_to GameScreen.ServerSelection }, true)
  | GameScreen.ServerSelection, InputEvent.Enter =>
    let s1 := if g.state.selected_region.isNone then g.state.set_region Region.EU else g.state
    ({ g with state := s1.transition_to GameScreen.MainMenu }, true)
  | GameScreen.ServerSelection, InputEvent.MouseClick _ y =>
    let region :=
      if y < g.height / 3 then Region.EU
      else if y < 2 * g.height / 3 then Region.Asia
      else Region.Vietnam
    ({ g with state := (g.state.set_region region).transition_to GameScreen.MainMenu }, true)
  | GameScreen.ServerSelection, InputEvent.TouchTap _ y =>
    let region :=
      if y < g.height / 3 then Region.EU
      else if y < 2 * g.height / 3 then Region.Asia
      else Region.Vietnam
    ({ g with state := (g.state.set_region region).transition_to GameScreen.MainMenu }, true)
  | GameScreen.MainMenu, InputEvent.Enter =>
    ({ g with state := g.state.transition_to GameScreen.GameHUD }, true)
  | GameScreen.MainMenu, InputEvent.MouseClick _ _ =>
    ({ g with state := g.state.transition_to GameScreen.GameHUD }, true)
  | GameScreen.MainMenu, InputEvent.TouchTap _ _ =>
    ({ g with state := g.state.transition_to GameScreen.GameHUD }, true)
  | GameScreen.GameHUD, InputEvent.ToggleInventory =>
    ({ g with state := g.state.transition_to GameScreen.Inventory }, true)
  | GameScreen.GameHUD, InputEvent.ToggleShop =>
    ({ g with state := g.state.transition_to GameScreen.Shop }, true)
  | GameScreen.GameHUD, InputEvent.ToggleHelp =>
    ({ g with state := g.state.transition_to GameScreen.HelpModal }, true)
  | GameScreen.Inventory, InputEvent.Escape =>
    ({ g with state := g.state.transition_to GameScreen.GameHUD }, true)
  | GameScreen.Shop, InputEvent.Escape =>
    ({ g with state := g.state.transition_to GameScreen.GameHUD }, true)
  | GameScreen.HelpModal, InputEvent.Escape =>
    ({ g with state := g.state.transition_to GameScreen.GameHUD }, true)
  | GameScreen.Inventory, InputEvent.MenuBack =>
    ({ g with state := g.state.transition_to GameScreen.GameHUD }, true)
  | GameScreen.Shop, InputEvent.MenuBack =>
    ({ g with state := g.state.transition_to GameScreen.GameHUD }, true)
  | GameScreen.HelpModal, InputEvent.MenuBack =>
    ({ g with state := g.state.transition_to GameScreen.GameHUD }, true)
  | _, InputEvent.Escape =>
    match g.state.current_screen with
    | GameScreen.LoginScreen => (g, false)
    | GameScreen.ServerSelection =>
      ({ g with state := g.state.transition_to GameScreen.LoginScreen }, true)
    | GameScreen.MainMenu =>
      ({ g with state := g.state.transition_to GameScreen.ServerSelection }, true)
    | GameScreen.GameHUD => (g, false)
    | _ => ({ g with state := g.state.transition_to GameScreen.GameHUD }, true)
  | _, _ => (g, false)

/-- Game::handle_input (lib.rs lines 152-194).  The serde_json coordinate
parse is an external collaborator, abstracted as the parse argument;
unknown event types fall through to the final arm and return false. -/
def Game.handle_input (parse : String → Option (ℚ × ℚ)) (g : Game)
    (event_type data : String) : Game × Bool :=
  if event_type = "keydown" then
    let p := g.input_handler.handle_key_down data
    let g1 : Game := { g with input_handler := p.1 }
    match p.2 with
    | some ev => g1.process_input_event ev
    | none => (g1, false)
  else if event_type = "keyup" then
    ({ g with input_handler := g.input_handler.handle_key_up data }, false)
  else if event_type = "mouseclick" then
    match parse data with
    | some coords =>
      let p := g.input_handler.handle_mouse_click coords.1 coords.2
      let g1 : Game := { g with input_handler := p.1 }
      g1.process_input_event p.2
    | none => (g, false)
  else if event_type = "touch" ∨ event_type = "touchstart" then
    match parse data with
    | some coords =>
      let p := g.input_handler.handle_touch coords.1 coords.2
      let g1 : Game := { g with input_handler := p.1 }
      g1.process_input_event p.2
    | none => (g, false)
  else if event_type = "touchend" then
    (g, false)
  else
    (g, false)

/-- Game::update (lib.rs lines 121-132): apply the movement delta when
nonzero, then run the legacy ball physics when on the GameHUD screen. -/
def Game.update (g : Game) : Option Game :=
  let d := g.input_handler.get_movement_delta
  let s1opt := if d.1 ≠ 0 ∨ d.2 ≠ 0 then g.state.move_player d.1 d.2 else some g.state
  match s1opt with
  | none => none
  | some s1 =>
    if s1.current_screen = GameScreen.GameHUD then
      match s1.update_ball_physics with
      | none => none
      | some s2 => some { g with state := s2 }
    else
      some { g with state := s1 }

/-- Game::reset (lib.rs lines 230-232). -/
def Game.reset (g : Game) : Game :=
  { g with state := g.state.reset }

/-- The ball position lies in the interior box of the world of state s. -/
def ballInBox (s : GameState) : Prop :=
  BALL_RADIUS ≤ s.ball_x ∧ s.ball_x ≤ s.world_width - BALL_RADIUS ∧
  BALL_RADIUS ≤ s.ball_y ∧ s.ball_y ≤ s.world_height - BALL_RADIUS

instance (s : GameState) : Decidable (ballInBox s) := by
  unfold ballInBox; infer_instance

/-- The legacy ball position lies in the interior box of its world. -/
def legacyBallInBox (b : LegacyBallState) : Prop :=
  BALL_RADIUS ≤ b.ball_x ∧ b.ball_x ≤ b.width - BALL_RADIUS ∧
  BALL_RADIUS ≤ b.ball_y ∧ b.ball_y ≤ b.height - BALL_RADIUS

instance (b : LegacyBallState) : Decidable (legacyBallInBox b) := by
  unfold legacyBallInBox; infer_instance

/-- The player position lies in the world rectangle of state s. -/
def playerInBox (s : GameState) : Prop :=
  0 ≤ s.player_x ∧ s.player_x ≤ s.world_width ∧
  0 ≤ s.player_y ∧ s.player_y ≤ s.world_height

instance (s : GameState) : Decidable (playerInBox s) := by
  unfold playerInBox; infer_instance

/-- Iterate the ball physics update n times, propagating the abort. -/
def iterateBall : ℕ → GameState → Option GameState
  | 0, s => some s
  | n + 1, s =>
    match s.update_ball_physics with
    | none => none
    | some t => iterateBall n t

/-- Iterate the legacy ball update n times, propagating the abort. -/
def iterateLegacy : ℕ → LegacyBallState → Option LegacyBallState
  | 0, b => some b
  | n + 1, b =>
    match b.update with
    | none => none
    | some c => iterateLegacy n c

/-- Apply a sequence of movement deltas with move_player, propagating the
abort. -/
def applyMoves : List (ℚ × ℚ) → GameState → Option GameState
  | [], s => some s
  | d :: ds, s =>
    match s.move_player d.1 d.2 with
    | none => none
    | some t => applyMoves ds t

/-- Recognized key-code strings of handle_key_down (input.rs lines 56-82). -/
def recognizedKeyCodes : List String :=
  ["KeyW", "ArrowUp", "KeyS", "ArrowDown", "KeyA", "ArrowLeft",
   "KeyD", "ArrowRight", "KeyI", "KeyT", "KeyH", "F1",
   "Enter", "Escape", "Space"]

/-- Recognized event-type strings of handle_input (lib.rs lines 152-194). -/
def recognizedEventTypes : List String :=
  ["keydown", "keyup", "mouseclick", "touch", "touchstart", "touchend"]

/-- A concrete game on the server-selection screen over an 800 by 600
canvas, used to instantiate universally quantified theorems. -/
def sampleServerGame : Game where
  state := (GameState.new 800 600).transition_to GameScreen.ServerSelection
  input_handler := InputHandler.new
  width := 800
  height := 600

/-- When the interval is nonempty, rustClamp succeeds and its value lies
in the interval. -/
theorem rustClamp_eq_some (x lo hi : ℚ) (hle : lo ≤ hi) :
    ∃ y, rustClamp x lo hi = some y ∧ lo ≤ y ∧ y ≤ hi := by
  refine ⟨if x < lo then lo else if x > hi then hi else x, ?_, ?_, ?_⟩
  · simp [rustClamp, hle]
  · split_ifs <;> linarith
  · split_ifs <;> linarith

/-- rustClamp succeeds exactly when the interval is nonempty. -/
theorem rustClamp_isSome (x lo hi : ℚ) :
    (rustClamp x lo hi).isSome = true ↔ lo ≤ hi := by
  unfold rustClamp
  split_ifs with h <;> simp [h]

/-- C4: every screen transition leaves error_message equal to none,
regardless of the prior value and of the target screen. -/
theorem transition_clears_error (s : GameState) (screen : GameScreen) :
    (s.transition_to screen).error_message = none := rfl

/-- C6: reset is idempotent, and the state after reset has the default
screen GameHUD, region EU, default player name, loading false, no error,
player and ball recentered at half the world bounds, and the default ball
velocity. -/
theorem reset_idempotent_defaults (s : GameState) :
    s.reset.reset = s.reset ∧
    s.reset.current_screen = GameScreen.GameHUD ∧
    s.reset.selected_region = some Region.EU ∧
    s.reset.player_name = some "Player" ∧
    s.reset.is_loading = false ∧
    s.reset.error_message = none ∧
    s.reset.player_x = s.world_width / 2 ∧
    s.reset.player_y = s.world_height / 2 ∧
    s.reset.ball_x = s.world_width / 2 ∧
    s.reset.ball_y = s.world_height / 2 ∧
    s.reset.ball_dx = DEFAULT_BALL_SPEED_X ∧
    s.reset.ball_dy = DEFAULT_BALL_SPEED_Y :=
  ⟨rfl, rfl, rfl, rfl, rfl, rfl, rfl, rfl, rfl, rfl, rfl, rfl⟩

/-- C7 counterexample: a second key-down for KeyW with no intervening
key-up again returns the MoveUp event, so the directional event is not
returned only once per press. -/
theorem key_down_repeat_returns_event_again :
    (InputHandler.new.handle_key_down "KeyW").2 = some InputEvent.MoveUp ∧
    ((InputHandler.new.handle_key_down "KeyW").1.handle_key_down "KeyW").2 =
      some InputEvent.MoveUp :=
  ⟨rfl, rfl⟩

/-- C7 amended: for every movement key (WASD and arrow equivalents),
key-down sets the corresponding held-flag and returns the directional
event, and key-up clears the flag; the event is returned on every
key-down call, including repeated calls with no intervening key-up. -/
theorem movement_key_flags_every_press (h : InputHandler) :
    ((h.handle_key_down "KeyW").1.state.move_up = true ∧
      (h.handle_key_down "KeyW").2 = some InputEvent.MoveUp) ∧
    ((h.handle_key_down "ArrowUp").1.state.move_up = true ∧
      (h.handle_key_down "ArrowUp").2 = some InputEvent.MoveUp) ∧
    ((h.handle_key_down "KeyS").1.state.move_down = true ∧
      (h.handle_key_down "KeyS").2 = some InputEvent.MoveDown) ∧
    ((h.handle_key_down "ArrowDown").1.state.move_down = true ∧
      (h.handle_key_down "ArrowDown").2 = some InputEvent.MoveDown) ∧
    ((h.handle_key_down "KeyA").1.state.move_left = true ∧
      (h.handle_key_down "KeyA").2 = some InputEvent.MoveLeft) ∧
    ((h.handle_key_down "ArrowLeft").1.state.move_left = true ∧
      (h.handle_key_down "ArrowLeft").2 = some InputEvent.MoveLeft) ∧
    ((h.handle_key_down "KeyD").1.state.move_right = true ∧
      (h.handle_key_down "KeyD").2 = some InputEvent.MoveRight) ∧
    ((h.handle_key_down "ArrowRight").1.state.move_right = true ∧
      (h.handle_key_down "ArrowRight").2 = some InputEvent.MoveRight) ∧
    (h.handle_key_up "KeyW").state.move_up = false ∧
    (h.handle_key_up "ArrowUp").state.move_up = false ∧
    (h.handle_key_up "KeyS").state.move_down = false ∧
    (h.handle_key_up "ArrowDown").state.move_down = false ∧
    (h.handle_key_up "KeyA").state.move_left = false ∧
    (h.handle_key_up "ArrowLeft").state.move_left = false ∧
    (h.handle_key_up "KeyD").state.move_right = false ∧
    (h.handle_key_up "ArrowRight").state.move_right = false :=
  ⟨⟨rfl, rfl⟩, ⟨rfl, rfl⟩, ⟨rfl, rfl⟩, ⟨rfl, rfl⟩, ⟨rfl, rfl⟩, ⟨rfl, rfl⟩,
   ⟨rfl, rfl⟩, ⟨rfl, rfl⟩, rfl, rfl, rfl, rfl, rfl, rfl, rfl, rfl⟩

/-- C8 counterexample: the touch handler returns the TouchTap event with
the given coordinates but does not record them in the input state: after
handle_touch 300 400 on a fresh handler the stored mouse coordinates are
still the defaults, not 300 and 400. -/
theorem touch_does_not_record_coords :
    (InputHandler.new.handle_touch 300 400).2 = InputEvent.TouchTap 300 400 ∧
    (InputHandler.new.handle_touch 300 400).1.state.mouse_x ≠ 300 ∧
    (InputHandler.new.handle_touch 300 400).1.state.mouse_y ≠ 400 :=
  ⟨rfl, by decide, by decide⟩

/-- C8 amended: the mouse handlers always succeed, record the given
coordinates in the input state, and the click handler returns the
MouseClick event with exactly those coordinates; the touch handler also
always succeeds and returns the TouchTap event with exactly the given
coordinates, but leaves the input state unchanged (it does not record
them). -/
theorem pointer_touch_handler_behavior (h : InputHandler) (x y : ℚ) :
    (h.handle_mouse_click x y).1.state.mouse_x = x ∧
    (h.handle_mouse_click x y).1.state.mouse_y = y ∧
    (h.handle_mouse_click x y).2 = InputEvent.MouseClick x y ∧
    (h.handle_mouse_move x y).state.mouse_x = x ∧
    (h.handle_mouse_move x y).state.mouse_y = y ∧
    (h.handle_mouse_down x y).state.mouse_x = x ∧
    (h.handle_mouse_down x y).state.mouse_y = y ∧
    (h.handle_mouse_down x y).state.is_mouse_down = true ∧
    (h.handle_mouse_up x y).state.mouse_x = x ∧
    (h.handle_mouse_up x y).state.mouse_y = y ∧
    (h.handle_mouse_up x y).state.is_mouse_down = false ∧
    (h.handle_touch x y).2 = InputEvent.TouchTap x y ∧
    (h.handle_touch x y).1 = h :=
  ⟨rfl, rfl, rfl, rfl, rfl, rfl, rfl, rfl, rfl, rfl, rfl, rfl, rfl⟩

/-- When the world is at least twice the ball radius in each dimension,
one ball update succeeds, lands in the interior box, preserves the world
bounds, and each velocity component is either kept or negated. -/
theorem update_ball_ok (s : GameState)
    (hw : 2 * BALL_RADIUS ≤ s.world_width) (hh : 2 * BALL_RADIUS ≤ s.world_height) :
    ∃ t, s.update_ball_physics = some t ∧ ballInBox t ∧
      t.world_width = s.world_width ∧ t.world_height = s.world_height := by
  have hw2 : BALL_RADIUS ≤ s.world_width - BALL_RADIUS := by linarith
  have hh2 : BALL_RADIUS ≤ s.world_height - BALL_RADIUS := by linarith
  obtain ⟨cx, hcx, hcx1, hcx2⟩ :=
    rustClamp_eq_some (s.ball_x + s.ball_dx) BALL_RADIUS (s.world_width - BALL_RADIUS) hw2
  obtain ⟨cy, hcy, hcy1, hcy2⟩ :=
    rustClamp_eq_some (s.ball_y + s.ball_dy) BALL_RADIUS (s.world_height - BALL_RADIUS) hh2
  simp only [GameState.update_ball_physics, hcx, hcy]
  exact ⟨_, rfl, ⟨hcx1, hcx2, hcy1, hcy2⟩, rfl, rfl⟩

/-- Legacy version of update_ball_ok for LegacyBallState::update. -/
theorem update_legacy_ok (b : LegacyBallState)
    (hw : 2 * BALL_RADIUS ≤ b.width) (hh : 2 * BALL_RADIUS ≤ b.height) :
    ∃ c, b.update = some c ∧ legacyBallInBox c ∧
      c.width = b.width ∧ c.height = b.height := by
  have hw2 : BALL_RADIUS ≤ b.width - BALL_RADIUS := by linarith
  have hh2 : BALL_RADIUS ≤ b.height - BALL_RADIUS := by linarith
  obtain ⟨cx, hcx, hcx1, hcx2⟩ :=
    rustClamp_eq_some (b.ball_x + b.ball_dx) BALL_RADIUS (b.width - BALL_RADIUS) hw2
  obtain ⟨cy, hcy, hcy1, hcy2⟩ :=
    rustClamp_eq_some (b.ball_y + b.ball_dy) BALL_RADIUS (b.height - BALL_RADIUS) hh2
  simp only [LegacyBallState.update, hcx, hcy]
  exact ⟨_, rfl, ⟨hcx1, hcx2, hcy1, hcy2⟩, rfl, rfl⟩

/-- A state whose ball is in the interior box has a world at least twice
the ball radius wide and high. -/
theorem ballInBox_world (s : GameState) (hs : ballInBox s) :
    2 * BALL_RADIUS ≤ s.world_width ∧ 2 * BALL_RADIUS ≤ s.world_height := by
  obtain ⟨h1, h2, h3, h4⟩ := hs
  constructor <;> linarith

/-- Legacy version of ballInBox_world. -/
theorem legacyBallInBox_world (b : LegacyBallState) (hb : legacyBallInBox b) :
    2 * BALL_RADIUS ≤ b.width ∧ 2 * BALL_RADIUS ≤ b.height := by
  obtain ⟨h1, h2, h3, h4⟩ := hb
  constructor <;> linarith

/-- Iterating the ball update from an in-box state always succeeds and
stays in the interior box. -/
theorem iterateBall_ok (n : ℕ) :
    ∀ s : GameState, ballInBox s → ∃ t, iterateBall n s = some t ∧ ballInBox t := by
  induction n with
  | zero => exact fun s hs => ⟨s, rfl, hs⟩
  | succ n ih =>
    intro s hs
    obtain ⟨hw, hh⟩ := ballInBox_world s hs
    obtain ⟨t, ht, htbox, _, _⟩ := update_ball_ok s hw hh
    obtain ⟨u, hu, hubox⟩ := ih t htbox
    exact ⟨u, by simp only [iterateBall, ht, hu], hubox⟩

/-- Legacy version of iterateBall_ok. -/
theorem iterateLegacy_ok (n : ℕ) :
    ∀ b : LegacyBallState, legacyBallInBox b →
      ∃ c, iterateLegacy n b = some c ∧ legacyBallInBox c := by
  induction n with
  | zero => exact fun b hb => ⟨b, rfl, hb⟩
  | succ n ih =>
    intro b hb
    obtain ⟨hw, hh⟩ := legacyBallInBox_world b hb
    obtain ⟨c, hc, hcbox, _, _⟩ := update_legacy_ok b hw hh
    obtain ⟨d, hd, hdbox⟩ := ih c hcbox
    exact ⟨d, by simp only [iterateLegacy, hc, hd], hdbox⟩

/-- C1: starting from a state whose ball position lies in the interior
box, every sequence of ball-physics updates succeeds and after each
update the ball position again lies in the interior box on both axes;
this holds for GameState::update_ball_physics and for the identical
LegacyBallState::update. -/
theorem ball_position_invariant (s : GameState) (b : LegacyBallState)
    (hs : ballInBox s) (hb : legacyBallInBox b) (n : ℕ) :
    (∃ t, iterateBall n s = some t ∧ ballInBox t) ∧
    (∃ c, iterateLegacy n b = some c ∧ legacyBallInBox c) :=
  ⟨iterateBall_ok n s hs, iterateLegacy_ok n b hb⟩

/-- C1 witness: from the initial 800 by 600 state the ball stays in the
interior box across three updates, in both embeddings. -/
theorem ball_position_invariant_witness :
    ballInBox (GameState.new 800 600) ∧
    legacyBallInBox (LegacyBallState.new 800 600) ∧
    ((∃ t, iterateBall 3 (GameState.new 800 600) = some t ∧ ballInBox t) ∧
     (∃ c, iterateLegacy 3 (LegacyBallState.new 800 600) = some c ∧ legacyBallInBox c)) :=
  ⟨by norm_num [ballInBox, GameState.new, BALL_RADIUS],
   by norm_num [legacyBallInBox, LegacyBallState.new, BALL_RADIUS, DEFAULT_BALL_SPEED_X,
     DEFAULT_BALL_SPEED_Y],
   ball_position_invariant (GameState.new 800 600) (LegacyBallState.new 800 600)
     (by norm_num [ballInBox, GameState.new, BALL_RADIUS])
     (by norm_num [legacyBallInBox, LegacyBallState.new, BALL_RADIUS, DEFAULT_BALL_SPEED_X,
       DEFAULT_BALL_SPEED_Y]) 3⟩

/-- One ball update either keeps or negates each velocity component. -/
theorem update_ball_vel (s t : GameState) (h : s.update_ball_physics = some t) :
    (t.ball_dx = s.ball_dx ∨ t.ball_dx = -s.ball_dx) ∧
    (t.ball_dy = s.ball_dy ∨ t.ball_dy = -s.ball_dy) := by
  simp only [GameState.update_ball_physics] at h
  rcases hcx : rustClamp (s.ball_x + s.ball_dx) BALL_RADIUS (s.world_width - BALL_RADIUS) with
    _ | cx
  · rw [hcx] at h; cases h
  rw [hcx] at h
  rcases hcy : rustClamp (s.ball_y + s.ball_dy) BALL_RADIUS (s.world_height - BALL_RADIUS) with
    _ | cy
  · rw [hcy] at h; cases h
  rw [hcy] at h
  simp only [Option.some.injEq] at h
  subst h
  constructor <;> (dsimp only; split_ifs) <;> simp

/-- Legacy version of update_ball_vel. -/
theorem update_legacy_vel (b c : LegacyBallState) (h : b.update = some c) :
    (c.ball_dx = b.ball_dx ∨ c.ball_dx = -b.ball_dx) ∧
    (c.ball_dy = b.ball_dy ∨ c.ball_dy = -b.ball_dy) := by
  simp only [LegacyBallState.update] at h
  rcases hcx : rustClamp (b.ball_x + b.ball_dx) BALL_RADIUS (b.width - BALL_RADIUS) with
    _ | cx
  · rw [hcx] at h; cases h
  rw [hcx] at h
  rcases hcy : rustClamp (b.ball_y + b.ball_dy) BALL_RADIUS (b.height - BALL_RADIUS) with
    _ | cy
  · rw [hcy] at h; cases h
  rw [hcy] at h
  simp only [Option.some.injEq] at h
  subst h
  constructor <;> (dsimp only; split_ifs) <;> simp

/-- C2: one ball-physics update conserves the squared speed: the quantity
dx^2 + dy^2 after the update equals its value before, both for
GameState::update_ball_physics and for LegacyBallState::update, since the
update only ever negates velocity components and never scales them. -/
theorem ball_speed_conserved (s t : GameState) (b c : LegacyBallState)
    (h1 : s.update_ball_physics = some t) (h2 : b.update = some c) :
    t.ball_dx ^ 2 + t.ball_dy ^ 2 = s.ball_dx ^ 2 + s.ball_dy ^ 2 ∧
    c.ball_dx ^ 2 + c.ball_dy ^ 2 = b.ball_dx ^ 2 + b.ball_dy ^ 2 := by
  obtain ⟨hx, hy⟩ := update_ball_vel s t h1
  obtain ⟨hx2, hy2⟩ := update_legacy_vel b c h2
  constructor
  · rcases hx with h | h <;> rcases hy with h9 | h9 <;> rw [h, h9] <;> ring
  · rcases hx2 with h | h <;> rcases hy2 with h9 | h9 <;> rw [h, h9] <;> ring

/-- C2 witness: from the initial 800 by 600 states, one update moves the
ball to (403, 302) without touching a wall and conserves the squared
speed. -/
theorem ball_speed_conserved_witness :
    (GameState.new 800 600).update_ball_physics =
      some { GameState.new 800 600 with ball_x := 403, ball_y := 302 } ∧
    (LegacyBallState.new 800 600).update =
      some { LegacyBallState.new 800 600 with ball_x := 403, ball_y := 302 } ∧
    (({ GameState.new 800 600 with ball_x := 403, ball_y := 302 } : GameState).ball_dx ^ 2 +
        ({ GameState.new 800 600 with ball_x := 403, ball_y := 302 } : GameState).ball_dy ^ 2 =
      (GameState.new 800 600).ball_dx ^ 2 + (GameState.new 800 600).ball_dy ^ 2) ∧
    (({ LegacyBallState.new 800 600 with ball_x := 403, ball_y := 302 } : LegacyBallState).ball_dx ^ 2 +
        ({ LegacyBallState.new 800 600 with ball_x := 403, ball_y := 302 } : LegacyBallState).ball_dy ^ 2 =
      (LegacyBallState.new 800 600).ball_dx ^ 2 + (LegacyBallState.new 800 600).ball_dy ^ 2) := by
  have h1 : (GameState.new 800 600).update_ball_physics =
      some { GameState.new 800 600 with ball_x := 403, ball_y := 302 } := by
    norm_num [GameState.update_ball_physics, GameState.new, rustClamp, BALL_RADIUS]
  have h2 : (LegacyBallState.new 800 600).update =
      some { LegacyBallState.new 800 600 with ball_x := 403, ball_y := 302 } := by
    norm_num [LegacyBallState.update, LegacyBallState.new, rustClamp, BALL_RADIUS,
      DEFAULT_BALL_SPEED_X, DEFAULT_BALL_SPEED_Y]
  have h3 := ball_speed_conserved _ _ _ _ h1 h2
  exact ⟨h1, h2, h3.1, h3.2⟩

/-- C10: the ball-physics update is total exactly when the world is at
least twice the ball radius in each dimension; below that, the clamp
lower bound exceeds its upper bound and the update aborts. -/
theorem ball_update_total_iff_world_big_enough (s : GameState) :
    (s.update_ball_physics).isSome = true ↔
      2 * BALL_RADIUS ≤ s.world_width ∧ 2 * BALL_RADIUS ≤ s.world_height := by
  constructor
  · intro h
    simp only [GameState.update_ball_physics] at h
    rcases hcx : rustClamp (s.ball_x + s.ball_dx) BALL_RADIUS (s.world_width - BALL_RADIUS) with
      _ | cx
    · rw [hcx] at h; simp at h
    rcases hcy : rustClamp (s.ball_y + s.ball_dy) BALL_RADIUS (s.world_height - BALL_RADIUS) with
      _ | cy
    · rw [hcx, hcy] at h; simp at h
    have hw := (rustClamp_isSome (s.ball_x + s.ball_dx) BALL_RADIUS
      (s.world_width - BALL_RADIUS)).1 (by rw [hcx]; rfl)
    have hh := (rustClamp_isSome (s.ball_y + s.ball_dy) BALL_RADIUS
      (s.world_height - BALL_RADIUS)).1 (by rw [hcy]; rfl)
    constructor <;> linarith
  · rintro ⟨hw, hh⟩
    obtain ⟨t, ht, _, _, _⟩ := update_ball_ok s hw hh
    rw [ht]; rfl

/-- A state whose player is inside the world rectangle has nonnegative
world bounds. -/
theorem playerInBox_world (s : GameState) (hs : playerInBox s) :
    0 ≤ s.world_width ∧ 0 ≤ s.world_height := by
  obtain ⟨h1, h2, h3, h4⟩ := hs
  constructor <;> linarith

/-- When the world bounds are nonnegative, move_player succeeds for any
delta, lands inside the world rectangle and preserves the bounds. -/
theorem move_player_ok (s : GameState) (dx dy : ℚ)
    (hw : 0 ≤ s.world_width) (hh : 0 ≤ s.world_height) :
    ∃ t, s.move_player dx dy = some t ∧ playerInBox t ∧
      t.world_width = s.world_width ∧ t.world_height = s.world_height := by
  obtain ⟨px, hpx, hpx1, hpx2⟩ := rustClamp_eq_some (s.player_x + dx) 0 s.world_width hw
  obtain ⟨py, hpy, hpy1, hpy2⟩ := rustClamp_eq_some (s.player_y + dy) 0 s.world_height hh
  simp only [GameState.move_player, hpx, hpy]
  exact ⟨_, rfl, ⟨hpx1, hpx2, hpy1, hpy2⟩, rfl, rfl⟩

/-- Applying any list of movement deltas from an in-bounds player state
always succeeds and stays in bounds. -/
theorem applyMoves_ok (ds : List (ℚ × ℚ)) :
    ∀ s : GameState, playerInBox s → ∃ t, applyMoves ds s = some t ∧ playerInBox t := by
  induction ds with
  | nil => exact fun s hs => ⟨s, rfl, hs⟩
  | cons d ds ih =>
    intro s hs
    obtain ⟨hw, hh⟩ := playerInBox_world s hs
    obtain ⟨t, ht, htbox, _, _⟩ := move_player_ok s d.1 d.2 hw hh
    obtain ⟨u, hu, hubox⟩ := ih t htbox
    exact ⟨u, by simp only [applyMoves, ht, hu], hubox⟩

/-- C3: for every sequence of player-movement applications with arbitrary
deltas, starting from a player position inside the world rectangle, every
application succeeds and the player position after each application stays
within the world rectangle on both axes. -/
theorem player_position_invariant (ds : List (ℚ × ℚ)) (s : GameState)
    (hs : playerInBox s) :
    ∃ t, applyMoves ds s = some t ∧ playerInBox t :=
  applyMoves_ok ds s hs

/-- C3 witness: from the initial 800 by 600 state, the delta sequence
(10, -5) then (-1000, -1000) keeps the player inside the world
rectangle. -/
theorem player_position_invariant_witness :
    playerInBox (GameState.new 800 600) ∧
    ∃ t, applyMoves [(10, -5), (-1000, -1000)] (GameState.new 800 600) = some t ∧
      playerInBox t :=
  ⟨by norm_num [playerInBox, GameState.new],
   player_position_invariant [(10, -5), (-1000, -1000)] (GameState.new 800 600)
     (by norm_num [playerInBox, GameState.new])⟩

/-- C9: unknown symbolic input is silently ignored: a key code outside
the recognized set makes handle_key_down return none with the handler
unchanged, and an event-type string outside the recognized set makes
handle_input return false with the game state unchanged. -/
theorem unknown_input_ignored (h : InputHandler) (code : String)
    (parse : String → Option (ℚ × ℚ)) (g : Game) (event_type data : String)
    (hcode : code ∉ recognizedKeyCodes) (hety : event_type ∉ recognizedEventTypes) :
    h.handle_key_down code = (h, none) ∧
    g.handle_input parse event_type data = (g, false) := by
  simp only [recognizedKeyCodes, List.mem_cons, List.not_mem_nil, or_false, not_or] at hcode
  obtain ⟨c1, c2, c3, c4, c5, c6, c7, c8, c9, c10, c11, c12, c13, c14, c15⟩ := hcode
  simp only [recognizedEventTypes, List.mem_cons, List.not_mem_nil, or_false, not_or] at hety
  obtain ⟨e1, e2, e3, e4, e5, e6⟩ := hety
  constructor
  · simp [InputHandler.handle_key_down, c1, c2, c3, c4, c5, c6, c7, c8, c9, c10,
      c11, c12, c13, c14, c15]
  · simp [Game.handle_input, e1, e2, e3, e4, e5, e6]

/-- C9 witness: the unrecognized key code KeyZ and the unrecognized event
type wheel are both ignored. -/
theorem unknown_input_ignored_witness :
    ("KeyZ" ∉ recognizedKeyCodes) ∧ ("wheel" ∉ recognizedEventTypes) ∧
    InputHandler.new.handle_key_down "KeyZ" = (InputHandler.new, none) ∧
    sampleServerGame.handle_input (fun _ => none) "wheel" "payload" =
      (sampleServerGame, false) := by
  have h := unknown_input_ignored InputHandler.new "KeyZ" (fun _ => none)
    sampleServerGame "wheel" "payload" (by decide) (by decide)
  exact ⟨by decide, by decide, h.1, h.2⟩

/-- On the ServerSelection screen a mouse click picks the region by the
vertical thirds of the canvas and moves to the MainMenu, reporting the
event handled. -/
theorem process_click_server (g : Game) (x y : ℚ)
    (hscr : g.state.current_screen = GameScreen.ServerSelection) :
    g.process_input_event (InputEvent.MouseClick x y) =
      ({ g with state := (g.state.set_region
          (if y < g.height / 3 then Region.EU
           else if y < 2 * g.height / 3 then Region.Asia
           else Region.Vietnam)).transition_to GameScreen.MainMenu }, true) := by
  obtain ⟨⟨scr, reg, pname, load, err, px, py, ww, wh, bx, bally, bdx, bdy⟩, ihh, gw, gh⟩ := g
  have hscr2 : scr = GameScreen.ServerSelection := hscr
  subst hscr2
  rfl

/-- On the ServerSelection screen a touch tap behaves like a mouse
click: same region thirds, same transition to MainMenu. -/
theorem process_touch_server (g : Game) (x y : ℚ)
    (hscr : g.state.current_screen = GameScreen.ServerSelection) :
    g.process_input_event (InputEvent.TouchTap x y) =
      ({ g with state := (g.state.set_region
          (if y < g.height / 3 then Region.EU
           else if y < 2 * g.height / 3 then Region.Asia
           else Region.Vietnam)).transition_to GameScreen.MainMenu }, true) := by
  obtain ⟨⟨scr, reg, pname, load, err, px, py, ww, wh, bx, bally, bdx, bdy⟩, ihh, gw, gh⟩ := g
  have hscr2 : scr = GameScreen.ServerSelection := hscr
  subst hscr2
  rfl

/-- C5: on the ServerSelection screen, a click or touch at (x, y) selects
EU when y is below a third of the height, Asia below two thirds, and
Vietnam otherwise; in all cases the next screen is MainMenu and the event
is reported handled; in particular, with a positive height, a click at a
tenth of the height selects EU, at half the height selects Asia, and at
nine tenths of the height selects Vietnam. -/
theorem server_select_region_click (g : Game) (x y : ℚ)
    (hscr : g.state.current_screen = GameScreen.ServerSelection)
    (hpos : 0 < g.height) :
    ((g.process_input_event (InputEvent.MouseClick x y)).1.state.selected_region =
      some (if y < g.height / 3 then Region.EU
        else if y < 2 * g.height / 3 then Region.Asia else Region.Vietnam)) ∧
    (g.process_input_event (InputEvent.MouseClick x y)).1.state.current_screen =
      GameScreen.MainMenu ∧
    (g.process_input_event (InputEvent.MouseClick x y)).2 = true ∧
    ((g.process_input_event (InputEvent.TouchTap x y)).1.state.selected_region =
      some (if y < g.height / 3 then Region.EU
        else if y < 2 * g.height / 3 then Region.Asia else Region.Vietnam)) ∧
    (g.process_input_event (InputEvent.TouchTap x y)).1.state.current_screen =
      GameScreen.MainMenu ∧
    (g.process_input_event (InputEvent.TouchTap x y)).2 = true ∧
    (g.process_input_event
      (InputEvent.MouseClick x (g.height * (1/10)))).1.state.selected_region =
      some Region.EU ∧
    (g.process_input_event
      (InputEvent.MouseClick x (g.height * (5/10)))).1.state.selected_region =
      some Region.Asia ∧
    (g.process_input_event
      (InputEvent.MouseClick x (g.height * (9/10)))).1.state.selected_region =
      some Region.Vietnam := by
  have h1 : g.height * (1/10) < g.height / 3 := by linarith
  have h2 : ¬ (g.height * (5/10) < g.height / 3) := by intro hc; linarith
  have h3 : g.height * (5/10) < 2 * g.height / 3 := by linarith
  have h4 : ¬ (g.height * (9/10) < g.height / 3) := by intro hc; linarith
  have h5 : ¬ (g.height * (9/10) < 2 * g.height / 3) := by intro hc; linarith
  refine ⟨?_, ?_, ?_, ?_, ?_, ?_, ?_, ?_, ?_⟩
  · rw [process_click_server g x y hscr]
    simp [GameState.set_region, GameState.transition_to]
  · rw [process_click_server g x y hscr]
    simp [GameState.set_region, GameState.transition_to]
  · rw [process_click_server g x y hscr]
  · rw [process_touch_server g x y hscr]
    simp [GameState.set_region, GameState.transition_to]
  · rw [process_touch_server g x y hscr]
    simp [GameState.set_region, GameState.transition_to]
  · rw [process_touch_server g x y hscr]
  · rw [process_click_server g x (g.height * (1/10)) hscr, if_pos h1]
    simp [GameState.set_region, GameState.transition_to]
  · rw [process_click_server g x (g.height * (5/10)) hscr, if_neg h2, if_pos h3]
    simp [GameState.set_region, GameState.transition_to]
  · rw [process_click_server g x (g.height * (9/10)) hscr, if_neg h4, if_neg h5]
    simp [GameState.set_region, GameState.transition_to]

/-- C5 witness: on an 800 by 600 canvas on the ServerSelection screen, a
click at (100, 60) lands in the top third, selects EU, moves to MainMenu
and is reported handled; clicks at 300 and 540 land in the middle and
bottom thirds. -/
theorem server_select_region_click_witness :
    sampleServerGame.state.current_screen = GameScreen.ServerSelection ∧
    (0 : ℚ) < sampleServerGame.height ∧
    (sampleServerGame.process_input_event
      (InputEvent.MouseClick 100 (sampleServerGame.height * (1/10)))).1.state.selected_region =
      some Region.EU ∧
    (sampleServerGame.process_input_event
      (InputEvent.MouseClick 100 (sampleServerGame.height * (5/10)))).1.state.selected_region =
      some Region.Asia ∧
    (sampleServerGame.process_input_event
      (InputEvent.MouseClick 100 (sampleServerGame.height * (9/10)))).1.state.selected_region =
      some Region.Vietnam ∧
    (sampleServerGame.process_input_event (InputEvent.MouseClick 100 60)).1.state.current_screen =
      GameScreen.MainMenu ∧
    (sampleServerGame.process_input_event (InputEvent.MouseClick 100 60)).2 = true := by
  have h := server_select_region_click sampleServerGame 100 60 rfl (by norm_num [sampleServerGame])
  have h2 := server_select_region_click sampleServerGame 100
    (sampleServerGame.height * (5/10)) rfl (by norm_num [sampleServerGame])
  exact ⟨rfl, by norm_num [sampleServerGame], h.2.2.2.2.2.2.1, h.2.2.2.2.2.2.2.1,
    h.2.2.2.2.2.2.2.2, h.2.1, h.2.2.1⟩
